import Mathlib

/-
Shallow embedding of the RabbitGateway class (src/src/RabbitGateway.js), the
core of the RabbitR1-OpenClaw-Hack repository: a WebSocket gateway that runs a
pairing handshake (token authentication), keeps a registry of paired device
connections, routes chat messages, and sends outbound chat events.

Modelling conventions:
- JSON frames are modelled by the inductive `Json`; object fields keep the
  insertion order used by the source (matching JSON.stringify key order).
- JavaScript `undefined`/absent string fields are `Option String` (`none`);
  JS truthiness on strings (`undefined`, `null` and `""` are falsy) is `truthy`.
- A WebSocket object `ws` is modelled by a numeric connection id pointing into
  `GWState.conns`; `ws.deviceId` is the `deviceId` tag of its `ConnInfo`, and
  `ws.readyState === WebSocket.OPEN` is its `isOpen` flag.
- `this.clients` (a JS `Map` from device id to ws) is an association list from
  device id to connection id with JS Map get/set/delete semantics.
- Nondeterministic inputs (`uuidv4()` results, `Date.now()` timestamps) are
  explicit parameters of the step functions.
- Side effects (bytes written on a connection, `EventEmitter` notifications,
  console log lines) are an ordered effect trace `List Eff`.
-/

/-- JSON values as produced by the gateway (object fields are ordered as in the
source's object literals, matching JSON.stringify). -/
inductive Json where
  | str (s : String)
  | num (n : Int)
  | bool (b : Bool)
  | arr (elems : List Json)
  | obj (fields : List (String × Json))

namespace RabbitGateway

/-- JS string truthiness for modelled fields: `none` (undefined/null) and the
empty string are falsy. -/
def truthy : Option String → Bool
  | none => false
  | some s => !(s = "")

/-- JS `a || b` on two possibly-undefined string values. -/
def jsOr (a b : Option String) : Option String :=
  if truthy a then a else b

/-- JS `a || dflt` where the default is a definite string. -/
def jsOrDefault (a : Option String) (dflt : String) : String :=
  match a with
  | some s => if s = "" then dflt else s
  | none => dflt

/-- JS `Map.prototype.get`: first binding of the key, if any. -/
def mapGet {α β : Type} [DecidableEq α] (m : List (α × β)) (k : α) : Option β :=
  match m with
  | [] => none
  | (k', v) :: rest => if k = k' then some v else mapGet rest k

/-- JS `Map.prototype.set`: replace the binding in place if the key exists,
otherwise append. -/
def mapSet {α β : Type} [DecidableEq α] (m : List (α × β)) (k : α) (v : β) :
    List (α × β) :=
  match m with
  | [] => [(k, v)]
  | (k', v') :: rest =>
      if k = k' then (k, v) :: rest else (k', v') :: mapSet rest k v

/-- JS `Map.prototype.delete`: remove the binding of the key, if any. -/
def mapDelete {α β : Type} [DecidableEq α] (m : List (α × β)) (k : α) :
    List (α × β) :=
  match m with
  | [] => []
  | (k', v') :: rest =>
      if k = k' then rest else (k', v') :: mapDelete rest k

/-- The modelled fields of `msg.params` for a parsed inbound message. A field
is `none` when the corresponding (possibly nested) JS property is absent. -/
structure Params where
  /-- `params.auth.token` (none when `auth` or its `token` is absent). -/
  authTokenNested : Option String := none
  /-- `params.authToken`. -/
  authToken : Option String := none
  /-- `params.device.id` (none when `device` or its `id` is absent). -/
  deviceIdNested : Option String := none
  /-- `params.deviceId`. -/
  deviceId : Option String := none
  /-- `params.client.id` (none when `client` or its `id` is absent). -/
  clientId : Option String := none
  /-- `params.message`. -/
  message : Option String := none
  /-- `params.sessionKey`. -/
  sessionKey : Option String := none
  /-- `params.idempotencyKey`. -/
  idempotencyKey : Option String := none
deriving DecidableEq

/-- A parsed inbound message (the result of `JSON.parse` on a frame), with the
fields `_handleMessage`, `_extractToken` and `_extractDeviceId` read. -/
structure Msg where
  /-- `msg.method`. -/
  method : Option String := none
  /-- `msg.id` (request correlation id). -/
  id : Option String := none
  /-- `msg.params`; `none` when the message has no `params` object. -/
  params : Option Params := none
  /-- `msg.auth.token` (none when `auth` or its `token` is absent). -/
  authTokenTop : Option String := none
  /-- `msg.token`. -/
  token : Option String := none
  /-- `msg.deviceId`. -/
  deviceIdTop : Option String := none
deriving DecidableEq

/-- Per-connection state: the `ws.deviceId` tag set on pairing, whether the
transport is open (`ws.readyState === WebSocket.OPEN`), and the remote
address/port string captured at accept time. -/
structure ConnInfo where
  deviceId : Option String := none
  isOpen : Bool := true
  remote : String := ""
deriving DecidableEq

/-- Gateway state: the token and debug flag fixed at construction, the
`clients` registry (device id to connection id) and the connection store. -/
structure GWState where
  token : String
  debug : Bool := false
  port : Nat := 18789
  clients : List (String × Nat) := []
  conns : List (Nat × ConnInfo) := []
deriving DecidableEq

/-- Source `_extractToken`: `msg.params?.auth?.token || msg.params?.authToken
|| msg.auth?.token || msg.token`. -/
def extractToken (m : Msg) : Option String :=
  jsOr (m.params.bind Params.authTokenNested)
    (jsOr (m.params.bind Params.authToken) (jsOr m.authTokenTop m.token))

/-- Source `_extractDeviceId`: `msg.params?.device?.id || msg.params?.deviceId
|| msg.params?.client?.id || msg.deviceId`. -/
def extractDeviceId (m : Msg) : Option String :=
  jsOr (m.params.bind Params.deviceIdNested)
    (jsOr (m.params.bind Params.deviceId)
      (jsOr (m.params.bind Params.clientId) m.deviceIdTop))

/-- Resolved device id for a connect request:
`this._extractDeviceId(msg) || device-(remoteInfo)`. -/
def resolveDeviceId (m : Msg) (remoteInfo : String) : String :=
  jsOrDefault (extractDeviceId m) ("device-" ++ remoteInfo)

/-- Notifications emitted to the application layer (`this.emit(...)`). -/
inductive Notif where
  | deviceConnected (id : String) (remote : String)
  | deviceDisconnected (id : String)
  | message (deviceId : String) (text : Option String)
      (sessionKey : Option String) (idempotencyKey : Option String)
  | error (errMsg : String)
deriving DecidableEq

/-- Console log lines, one constructor per logging site in the source. -/
inductive LogLine where
  /-- `Rabbit Gateway listening on port (port)` (from `start`). -/
  | listening (port : Nat)
  /-- `Gateway Token: (token)` (from `start`). -/
  | gatewayToken (token : String)
  /-- `New connection from (remote)` (from `_handleConnection`). -/
  | newConnection (remote : String)
  /-- `Error parsing message from (remote): (errMsg)` (message handler catch). -/
  | parseError (remote : String) (errMsg : String)
  /-- `IN < (json)` (debug echo of an inbound message). -/
  | debugIn (j : Json)
  /-- `OUT > (json)` (debug echo of an outbound frame). -/
  | debugOut (j : Json)
  /-- `Auth failed for device (deviceId)`. -/
  | authFailed (deviceId : String)
  /-- `Device Paired: (deviceId)`. -/
  | devicePaired (deviceId : String)
  /-- `Cannot send to (deviceId): Not connected`. -/
  | cannotSend (deviceId : String)
  /-- `Device disconnected: (deviceId)`. -/
  | deviceDisconnected (deviceId : String)

/-- One observable side effect: bytes of a frame written on a connection, a
notification to the application layer, or a console log line. Effect lists
are ordered as the source performs them. -/
inductive Eff where
  | frame (cid : Nat) (j : Json)
  | notif (n : Notif)
  | log (l : LogLine)

/-- True for log effects. -/
def Eff.isLog : Eff → Bool
  | .log _ => true
  | _ => false

/-- The non-log effects (written frames and notifications), in order. -/
def obsOf (effs : List Eff) : List Eff :=
  effs.filter fun e => !e.isLog

/-- Log lines that interpolate the gateway token or echo a raw frame (the
debug echoes can carry the token when a client presents the correct one). -/
def LogLine.sensitive : LogLine → Bool
  | .gatewayToken _ => true
  | .debugIn _ => true
  | .debugOut _ => true
  | _ => false

/-- Effects that are sensitive log lines in the sense of `LogLine.sensitive`. -/
def Eff.sensitiveLog : Eff → Bool
  | .log l => l.sensitive
  | _ => false

/-- Object field present only when the (string) value is defined; JSON.stringify
drops keys whose value is `undefined`. -/
def optField (k : String) (v : Option String) : List (String × Json) :=
  match v with
  | some s => [(k, Json.str s)]
  | none => []

/-- The `connect.challenge` event sent on accept. -/
def challengeJson (nonce : String) (ts : Int) : Json :=
  Json.obj [("type", Json.str "event"), ("event", Json.str "connect.challenge"),
    ("payload", Json.obj [("nonce", Json.str nonce), ("ts", Json.num ts)])]

/-- The 401 response to a connect request with a wrong token. -/
def res401Json (id : Option String) : Json :=
  Json.obj ([("type", Json.str "res")] ++ optField "id" id ++
    [("ok", Json.bool false),
     ("error", Json.obj [("code", Json.num 401), ("message", Json.str "Invalid token")])])

/-- The `node.pair.approved` event (its payload token is a fresh uuid). -/
def pairApprovedJson (deviceId : String) (freshTok : String) : Json :=
  Json.obj [("type", Json.str "event"), ("event", Json.str "node.pair.approved"),
    ("payload", Json.obj [("deviceId", Json.str deviceId), ("token", Json.str freshTok)])]

/-- The success response to a connect request. -/
def connectResJson (id : Option String) (ts : Int) : Json :=
  Json.obj ([("type", Json.str "res")] ++ optField "id" id ++
    [("ok", Json.bool true),
     ("payload", Json.obj [("status", Json.str "paired"), ("ts", Json.num ts)])])

/-- The `connect.ok` event. -/
def connectOkJson (deviceId : String) (ts : Int) : Json :=
  Json.obj [("type", Json.str "event"), ("event", Json.str "connect.ok"),
    ("payload", Json.obj [("deviceId", Json.str deviceId), ("ts", Json.num ts)])]

/-- The acknowledgment response to a `chat.send` request. -/
def chatAckJson (id : Option String) : Json :=
  Json.obj ([("type", Json.str "res")] ++ optField "id" id ++ [("ok", Json.bool true)])

/-- The outbound `chat` event built by `sendText`. -/
def chatEventJson (runId : String) (sessionKey : String) (text : String) (ts : Int) : Json :=
  Json.obj [("type", Json.str "event"), ("event", Json.str "chat"),
    ("payload", Json.obj
      [("runId", Json.str runId), ("sessionKey", Json.str sessionKey),
       ("seq", Json.num 1), ("state", Json.str "final"),
       ("message", Json.obj
         [("role", Json.str "assistant"),
          ("content", Json.arr [Json.obj [("type", Json.str "text"), ("text", Json.str text)]]),
          ("timestamp", Json.num ts), ("stopReason", Json.str "stop"),
          ("usage", Json.obj [("input", Json.num 0), ("output", Json.num 0),
            ("totalTokens", Json.num 0)])])])]

/-- Canonical re-nesting of a modelled `Params` into the JSON object shape the
debug echo serializes (used only by the `IN <` log line). -/
def paramsToJson (p : Params) : Json :=
  Json.obj ((match p.authTokenNested with
      | some s => [("auth", Json.obj [("token", Json.str s)])]
      | none => []) ++
    optField "authToken" p.authToken ++
    (match p.deviceIdNested with
      | some s => [("device", Json.obj [("id", Json.str s)])]
      | none => []) ++
    optField "deviceId" p.deviceId ++
    (match p.clientId with
      | some s => [("client", Json.obj [("id", Json.str s)])]
      | none => []) ++
    optField "message" p.message ++ optField "sessionKey" p.sessionKey ++
    optField "idempotencyKey" p.idempotencyKey)

/-- Canonical re-nesting of a modelled `Msg` into JSON for the debug echo. -/
def msgToJson (m : Msg) : Json :=
  Json.obj (optField "method" m.method ++ optField "id" m.id ++
    (match m.params with
      | some p => [("params", paramsToJson p)]
      | none => []) ++
    (match m.authTokenTop with
      | some s => [("auth", Json.obj [("token", Json.str s)])]
      | none => []) ++
    optField "token" m.token ++ optField "deviceId" m.deviceIdTop)

/-- Source `_sendJson`: writes the frame only when the connection's transport
is open (`ws.readyState === WebSocket.OPEN`); in debug mode the frame is also
echoed to the log first. -/
def sendJson (st : GWState) (cid : Nat) (j : Json) : List Eff :=
  match mapGet st.conns cid with
  | some ci =>
      if ci.isOpen then
        (if st.debug then [Eff.log (LogLine.debugOut j)] else []) ++ [Eff.frame cid j]
      else []
  | none => []

/-- Effect of `ws.deviceId = deviceId` on the connection store. -/
def tagConn (conns : List (Nat × ConnInfo)) (cid : Nat) (d : String) :
    List (Nat × ConnInfo) :=
  match conns with
  | [] => []
  | (k, ci) :: rest =>
      if k = cid then (k, { ci with deviceId := some d }) :: tagConn rest cid d
      else (k, ci) :: tagConn rest cid d

/-- Effect of the transport close on the connection store. -/
def markClosed (conns : List (Nat × ConnInfo)) (cid : Nat) :
    List (Nat × ConnInfo) :=
  match conns with
  | [] => []
  | (k, ci) :: rest =>
      if k = cid then (k, { ci with isOpen := false }) :: markClosed rest cid
      else (k, ci) :: markClosed rest cid

/-- Modelled message of the TypeError thrown by reading `msg.params.message`
when `params` is undefined (the exact text is engine-specific). -/
def paramsUndefinedError : String :=
  "Cannot read properties of undefined (reading message)"

/-- Result of one `_handleMessage` call: the state after it, its ordered
effects, and — when the handler body threw — the exception message that the
surrounding `ws.on(message)` catch block will log. -/
structure HRes where
  st : GWState
  effs : List Eff
  threw : Option String

/-- Source `_handleMessage`, the handshake/auth and routing logic. -/
def handleMessage (st : GWState) (cid : Nat) (m : Msg) (remoteInfo : String)
    (freshTok : String) (ts1 ts2 : Int) : HRes :=
  let dbg : List Eff := if st.debug then [Eff.log (LogLine.debugIn (msgToJson m))] else []
  if m.method = some "connect" ∨ m.method = some "gateway.connect" then
    let clientToken := extractToken m
    let deviceId := resolveDeviceId m remoteInfo
    if clientToken ≠ some st.token then
      ⟨st, dbg ++ [Eff.log (LogLine.authFailed deviceId)] ++ sendJson st cid (res401Json m.id),
        none⟩
    else
      let st' : GWState := { st with clients := mapSet st.clients deviceId cid,
                                     conns := tagConn st.conns cid deviceId }
      ⟨st', dbg ++ [Eff.log (LogLine.devicePaired deviceId)] ++
          sendJson st' cid (pairApprovedJson deviceId freshTok) ++
          sendJson st' cid (connectResJson m.id ts1) ++
          sendJson st' cid (connectOkJson deviceId ts2) ++
          [Eff.notif (Notif.deviceConnected deviceId remoteInfo)], none⟩
  else if m.method = some "chat.send" then
    match m.params with
    | none => ⟨st, dbg, some paramsUndefinedError⟩
    | some p =>
        let deviceId := jsOrDefault ((mapGet st.conns cid).bind ConnInfo.deviceId) "unknown"
        ⟨st, dbg ++
            [Eff.notif (Notif.message deviceId p.message p.sessionKey p.idempotencyKey)] ++
            sendJson st cid (chatAckJson m.id), none⟩
  else ⟨st, dbg, none⟩

/-- Result of `JSON.parse` on one raw inbound frame: a parsed message, or the
message of the SyntaxError it threw. -/
inductive ParseResult where
  | ok (m : Msg)
  | err (errMsg : String)
deriving DecidableEq

/-- The `ws.on(message)` handler: parse, dispatch, and catch-log any
exception (both parse failures and exceptions thrown inside the handler). -/
def handleRaw (st : GWState) (cid : Nat) (pr : ParseResult) (remoteInfo : String)
    (freshTok : String) (ts1 ts2 : Int) : GWState × List Eff :=
  match pr with
  | .err e => (st, [Eff.log (LogLine.parseError remoteInfo e)])
  | .ok m =>
      let r := handleMessage st cid m remoteInfo freshTok ts1 ts2
      match r.threw with
      | some e => (r.st, r.effs ++ [Eff.log (LogLine.parseError remoteInfo e)])
      | none => (r.st, r.effs)

/-- Source `_handleConnection`: record the accepted connection and send the
`connect.challenge` event. -/
def handleConnection (st : GWState) (cid : Nat) (remote : String)
    (nonce : String) (ts : Int) : GWState × List Eff :=
  let st' : GWState :=
    { st with conns := mapSet st.conns cid { deviceId := none, isOpen := true, remote := remote } }
  (st', [Eff.log (LogLine.newConnection remote)] ++ sendJson st' cid (challengeJson nonce ts))

/-- Transport close followed by source `_handleDisconnect`: the connection is
no longer open; if its `ws.deviceId` tag is truthy, delete that id from the
registry, log, and notify. -/
def handleClose (st : GWState) (cid : Nat) : GWState × List Eff :=
  let conns' := markClosed st.conns cid
  match (mapGet st.conns cid).bind ConnInfo.deviceId with
  | some d =>
      if d = "" then ({ st with conns := conns' }, [])
      else ({ st with conns := conns', clients := mapDelete st.clients d },
        [Eff.log (LogLine.deviceDisconnected d), Eff.notif (Notif.deviceDisconnected d)])
  | none => ({ st with conns := conns' }, [])

/-- Caller options of `sendText`. -/
structure SendOpts where
  sessionKey : Option String := none
  runId : Option String := none
deriving DecidableEq

/-- Source `sendText`: look up the device in the registry; if absent, log and
return false; otherwise build the chat event (defaulting `runId` to a fresh
uuid and `sessionKey` to `main`) and hand it to `_sendJson`. The function
never mutates the gateway state. -/
def sendText (st : GWState) (deviceId : String) (text : String) (opts : SendOpts)
    (freshRun : String) (now : Int) : Bool × List Eff :=
  match mapGet st.clients deviceId with
  | none => (false, [Eff.log (LogLine.cannotSend deviceId)])
  | some cid =>
      (true, sendJson st cid
        (chatEventJson (jsOrDefault opts.runId freshRun)
          (jsOrDefault opts.sessionKey "main") text now))

/-- Source `start`: the two log lines it always prints (port, then token). -/
def startEffs (st : GWState) : List Eff :=
  [Eff.log (LogLine.listening st.port), Eff.log (LogLine.gatewayToken st.token)]

/-- One externally triggered step of the gateway. -/
inductive Cmd where
  | accept (cid : Nat) (remote : String) (nonce : String) (ts : Int)
  | recv (cid : Nat) (pr : ParseResult) (remote : String) (freshTok : String) (ts1 ts2 : Int)
  | close (cid : Nat)
  | send (deviceId : String) (text : String) (opts : SendOpts) (freshRun : String) (now : Int)

/-- Interpretation of one step. -/
def step (st : GWState) : Cmd → GWState × List Eff
  | .accept cid remote nonce ts => handleConnection st cid remote nonce ts
  | .recv cid pr remote ftk ts1 ts2 => handleRaw st cid pr remote ftk ts1 ts2
  | .close cid => handleClose st cid
  | .send d text opts fr now => (st, (sendText st d text opts fr now).2)

/-- Run a sequence of steps, accumulating the effect trace. -/
def run (st : GWState) : List Cmd → GWState × List Eff
  | [] => (st, [])
  | c :: cs =>
      let r := step st c
      let r' := run r.1 cs
      (r'.1, r.2 ++ r'.2)

/-- The `ws.deviceId` tag currently carried by a connection. -/
def connTag (st : GWState) (cid : Nat) : Option String :=
  (mapGet st.conns cid).bind ConnInfo.deviceId

/-- JSON string escaping of one character, as JSON.stringify performs it for
the characters that can occur here. -/
def jsonEscapeChar (c : Char) : String :=
  if c = '"' then "\\\""
  else if c = '\\' then "\\\\"
  else if c = '\n' then "\\n"
  else if c = '\t' then "\\t"
  else if c = '\r' then "\\r"
  else String.singleton c

/-- JSON string escaping. -/
def jsonEscape (s : String) : String :=
  String.join (s.data.map jsonEscapeChar)

mutual

/-- JSON.stringify of a modelled JSON value: no whitespace, fields in
insertion order. -/
def stringifyJson : Json → String
  | Json.str s => "\"" ++ jsonEscape s ++ "\""
  | Json.num n => toString n
  | Json.bool b => if b then "true" else "false"
  | Json.arr xs => "[" ++ stringifyElems xs ++ "]"
  | Json.obj fs => "\x7b" ++ stringifyFields fs ++ "\x7d"

/-- Comma-separated serialization of array elements. -/
def stringifyElems : List Json → String
  | [] => ""
  | [x] => stringifyJson x
  | x :: y :: rest => stringifyJson x ++ "," ++ stringifyElems (y :: rest)

/-- Comma-separated serialization of object fields. -/
def stringifyFields : List (String × Json) → String
  | [] => ""
  | [kv] => "\"" ++ jsonEscape kv.1 ++ "\":" ++ stringifyJson kv.2
  | kv :: kv2 :: rest =>
      "\"" ++ jsonEscape kv.1 ++ "\":" ++ stringifyJson kv.2 ++ "," ++
        stringifyFields (kv2 :: rest)

end

/-- Rendered console text of a log line, formatted as the source prints it
(the `log` method prefixes `[RabbitGateway]`; the debug echoes prefix
`IN <` / `OUT >`). -/
def LogLine.render : LogLine → String
  | .listening p => "[RabbitGateway] Rabbit Gateway listening on port " ++ toString p
  | .gatewayToken t => "[RabbitGateway] Gateway Token: " ++ t
  | .newConnection r => "[RabbitGateway] New connection from " ++ r
  | .parseError r e => "[RabbitGateway] Error parsing message from " ++ r ++ ": " ++ e
  | .debugIn j => "IN < " ++ stringifyJson j
  | .debugOut j => "OUT > " ++ stringifyJson j
  | .authFailed d => "[RabbitGateway] Auth failed for device " ++ d
  | .devicePaired d => "[RabbitGateway] Device Paired: " ++ d
  | .cannotSend d => "[RabbitGateway] Cannot send to " ++ d ++ ": Not connected"
  | .deviceDisconnected d => "[RabbitGateway] Device disconnected: " ++ d

/-- Substring containment, the sense in which a log line contains the token. -/
def containsStr (s sub : String) : Prop :=
  ∃ pre post, s = pre ++ sub ++ post

/-- Tagging a connection rewrites exactly its entry in the connection store. -/
theorem mapGet_tagConn (conns : List (Nat × ConnInfo)) (cid : Nat) (d : String) :
    mapGet (tagConn conns cid d) cid =
      (mapGet conns cid).map fun ci => { ci with deviceId := some d } := by
  induction conns with
  | nil => rfl
  | cons p rest ih =>
      obtain ⟨k, ci⟩ := p
      by_cases h : k = cid
      · subst h
        simp [tagConn, mapGet]
      · have h' : ¬(cid = k) := fun hk => h hk.symm
        simp [tagConn, mapGet, h, h', ih]

/-- With debug disabled, `_sendJson` emits no sensitive log line. -/
theorem sendJson_nonsensitive (st : GWState) (cid : Nat) (j : Json)
    (h : st.debug = false) :
    ((sendJson st cid j).all fun e => !e.sensitiveLog) = true := by
  unfold sendJson
  cases mapGet st.conns cid with
  | none => rfl
  | some ci =>
      cases hopen : ci.isOpen <;> simp [h, Eff.sensitiveLog]

/-- Filtering the non-log effects distributes over concatenation. -/
theorem obsOf_append (a b : List Eff) : obsOf (a ++ b) = obsOf a ++ obsOf b := by
  simp [obsOf, List.filter_append]

/-- On an open connection, `_sendJson` writes the frame (after the debug echo
when enabled). -/
theorem sendJson_open (st : GWState) (cid : Nat) (j : Json) (ci : ConnInfo)
    (hconn : mapGet st.conns cid = some ci) (hopen : ci.isOpen = true) :
    sendJson st cid j =
      (if st.debug then [Eff.log (LogLine.debugOut j)] else []) ++ [Eff.frame cid j] := by
  simp [sendJson, hconn, hopen]

/-- Claim C1: for every connect (or gateway.connect) request whose extracted
token equals the gateway token, received on a connection whose transport is
open, the handler emits exactly three outbound frames on that connection, in
the fixed order: (1) a node.pair.approved event, (2) a success
Response with ok true and payload status "paired" and a timestamp, whose id
equals the request's id, (3) a connect.ok event; and after these three frames
it raises a deviceConnected notification carrying the resolved device id and
the remote address. -/
theorem connect_success_three_frames_then_notify
    (st : GWState) (cid : Nat) (m : Msg) (remoteInfo freshTok : String)
    (ts1 ts2 : Int) (ci : ConnInfo)
    (hmethod : m.method = some "connect" ∨ m.method = some "gateway.connect")
    (htok : extractToken m = some st.token)
    (hconn : mapGet st.conns cid = some ci) (hopen : ci.isOpen = true) :
    obsOf (handleMessage st cid m remoteInfo freshTok ts1 ts2).effs =
      [Eff.frame cid (Json.obj [("type", Json.str "event"),
          ("event", Json.str "node.pair.approved"),
          ("payload", Json.obj [("deviceId", Json.str (resolveDeviceId m remoteInfo)),
            ("token", Json.str freshTok)])]),
       Eff.frame cid (Json.obj ([("type", Json.str "res")] ++ optField "id" m.id ++
          [("ok", Json.bool true),
           ("payload", Json.obj [("status", Json.str "paired"), ("ts", Json.num ts1)])])),
       Eff.frame cid (Json.obj [("type", Json.str "event"), ("event", Json.str "connect.ok"),
          ("payload", Json.obj [("deviceId", Json.str (resolveDeviceId m remoteInfo)),
            ("ts", Json.num ts2)])]),
       Eff.notif (Notif.deviceConnected (resolveDeviceId m remoteInfo) remoteInfo)] := by
  rcases hmethod with h | h <;>
    cases hdbg : st.debug <;>
      simp [handleMessage, h, htok, hdbg, obsOf, List.filter_append, sendJson,
        mapGet_tagConn, hconn, hopen, Eff.isLog, pairApprovedJson, connectResJson,
        connectOkJson]

/-- Witness for claim C1's theorem at a concrete paired request. -/
theorem connect_success_three_frames_then_notify_witness :
    obsOf (handleMessage
      { token := "tok", debug := false, port := 18789, clients := [],
        conns := [(1, { deviceId := none, isOpen := true, remote := "1.2.3.4:9" })] }
      1
      { method := some "connect", id := some "q1",
        params := some { authTokenNested := some "tok", deviceIdNested := some "d1" } }
      "1.2.3.4:9" "ftok" 5 6).effs =
      [Eff.frame 1 (Json.obj [("type", Json.str "event"),
          ("event", Json.str "node.pair.approved"),
          ("payload", Json.obj [("deviceId", Json.str "d1"), ("token", Json.str "ftok")])]),
       Eff.frame 1 (Json.obj [("type", Json.str "res"), ("id", Json.str "q1"),
          ("ok", Json.bool true),
          ("payload", Json.obj [("status", Json.str "paired"), ("ts", Json.num 5)])]),
       Eff.frame 1 (Json.obj [("type", Json.str "event"), ("event", Json.str "connect.ok"),
          ("payload", Json.obj [("deviceId", Json.str "d1"), ("ts", Json.num 6)])]),
       Eff.notif (Notif.deviceConnected "d1" "1.2.3.4:9")] :=
  connect_success_three_frames_then_notify
    { token := "tok", debug := false, port := 18789, clients := [],
      conns := [(1, { deviceId := none, isOpen := true, remote := "1.2.3.4:9" })] }
    1
    { method := some "connect", id := some "q1",
      params := some { authTokenNested := some "tok", deviceIdNested := some "d1" } }
    "1.2.3.4:9" "ftok" 5 6
    { deviceId := none, isOpen := true, remote := "1.2.3.4:9" }
    (Or.inl rfl) rfl rfl rfl

/-- Claim C2: for every connect (or gateway.connect) request whose extracted
token differs from the gateway token, received on an open connection, exactly
one outbound frame is produced — a Response with ok false and error code 401,
correlated to the request's id — the gateway state is unchanged (no registry
entry is created, the connection stays open and keeps its unauthenticated
tag), and any number of identical retries leaves the state unchanged, so
retries are unlimited. -/
theorem connect_wrong_token_single_401
    (st : GWState) (cid : Nat) (m : Msg) (remoteInfo freshTok : String)
    (ts1 ts2 : Int) (ci : ConnInfo)
    (hmethod : m.method = some "connect" ∨ m.method = some "gateway.connect")
    (htok : extractToken m ≠ some st.token)
    (hconn : mapGet st.conns cid = some ci) (hopen : ci.isOpen = true) :
    (handleMessage st cid m remoteInfo freshTok ts1 ts2).st = st ∧
    obsOf (handleMessage st cid m remoteInfo freshTok ts1 ts2).effs =
      [Eff.frame cid (Json.obj ([("type", Json.str "res")] ++ optField "id" m.id ++
        [("ok", Json.bool false),
         ("error", Json.obj [("code", Json.num 401),
           ("message", Json.str "Invalid token")])]))] ∧
    ∀ n : Nat,
      (run st (List.replicate n
        (Cmd.recv cid (ParseResult.ok m) remoteInfo freshTok ts1 ts2))).1 = st := by
  have hmain : handleMessage st cid m remoteInfo freshTok ts1 ts2 =
      ⟨st, (if st.debug then [Eff.log (LogLine.debugIn (msgToJson m))] else []) ++
        ([Eff.log (LogLine.authFailed (resolveDeviceId m remoteInfo))] ++
          sendJson st cid (res401Json m.id)), none⟩ := by
    rcases hmethod with h | h <;> simp [handleMessage, h, htok]
  refine ⟨by rw [hmain], ?_, ?_⟩
  · rw [hmain]
    cases hdbg : st.debug <;>
      simp [obsOf, List.filter_append, sendJson, hconn, hopen, hdbg, Eff.isLog, res401Json]
  · have hstep : step st (Cmd.recv cid (ParseResult.ok m) remoteInfo freshTok ts1 ts2) =
        (st, (handleMessage st cid m remoteInfo freshTok ts1 ts2).effs) := by
      simp [step, handleRaw, hmain]
    intro n
    induction n with
    | zero => rfl
    | succ k ih => simp [List.replicate_succ, run, hstep, ih]

/-- Witness for claim C2's theorem at a concrete wrong-token request. -/
theorem connect_wrong_token_single_401_witness :
    let st : GWState :=
      { token := "tok", debug := false, port := 18789, clients := [],
        conns := [(1, { deviceId := none, isOpen := true, remote := "1.2.3.4:9" })] }
    let m : Msg :=
      { method := some "connect", id := some "q1",
        params := some { authTokenNested := some "bad", deviceIdNested := some "d1" } }
    (handleMessage st 1 m "1.2.3.4:9" "ftok" 5 6).st = st ∧
    obsOf (handleMessage st 1 m "1.2.3.4:9" "ftok" 5 6).effs =
      [Eff.frame 1 (Json.obj [("type", Json.str "res"), ("id", Json.str "q1"),
        ("ok", Json.bool false),
        ("error", Json.obj [("code", Json.num 401),
          ("message", Json.str "Invalid token")])])] ∧
    ∀ n : Nat,
      (run st (List.replicate n
        (Cmd.recv 1 (ParseResult.ok m) "1.2.3.4:9" "ftok" 5 6))).1 = st := by
  exact connect_wrong_token_single_401
    { token := "tok", debug := false, port := 18789, clients := [],
      conns := [(1, { deviceId := none, isOpen := true, remote := "1.2.3.4:9" })] }
    1
    { method := some "connect", id := some "q1",
      params := some { authTokenNested := some "bad", deviceIdNested := some "d1" } }
    "1.2.3.4:9" "ftok" 5 6
    { deviceId := none, isOpen := true, remote := "1.2.3.4:9" }
    (Or.inl rfl) (by decide) rfl rfl

/-- Claim C3 counterexample: a chat.send request received on a connection that
was never paired (its deviceId tag is unset) is not silently ignored — the
handler raises a message notification (with device id "unknown") to the
application layer and writes an acknowledgment frame on the connection. -/
theorem chat_send_processed_while_unpaired :
    obsOf (handleMessage
      { token := "tok", debug := false, port := 18789, clients := [],
        conns := [(1, { deviceId := none, isOpen := true, remote := "9.9.9.9:1" })] }
      1
      { method := some "chat.send", id := some "r1",
        params := some { message := some "hi", sessionKey := some "main",
                         idempotencyKey := some "k1" } }
      "9.9.9.9:1" "ftok" 0 0).effs =
    [Eff.notif (Notif.message "unknown" (some "hi") (some "main") (some "k1")),
     Eff.frame 1 (Json.obj [("type", Json.str "res"), ("id", Json.str "r1"),
        ("ok", Json.bool true)])] := rfl

/-- Claim C3 (amended): every request whose method is neither connect, nor
gateway.connect, nor chat.send is silently ignored — the state is unchanged,
no outbound frame is written, no notification is raised, and nothing is
thrown; the only possible effect is the debug echo of the inbound message.
(The original claim's further assertion that chat.send is ignored on unpaired
connections is refuted by the counterexample: chat.send is processed on any
connection, with device id "unknown" when unpaired.) -/
theorem unknown_method_silently_ignored
    (st : GWState) (cid : Nat) (m : Msg) (remoteInfo freshTok : String)
    (ts1 ts2 : Int)
    (h1 : m.method ≠ some "connect") (h2 : m.method ≠ some "gateway.connect")
    (h3 : m.method ≠ some "chat.send") :
    handleRaw st cid (ParseResult.ok m) remoteInfo freshTok ts1 ts2 =
      (st, if st.debug then [Eff.log (LogLine.debugIn (msgToJson m))] else []) := by
  simp [handleRaw, handleMessage, h1, h2, h3]

/-- Witness for claim C3's amended theorem at a concrete unknown method. -/
theorem unknown_method_silently_ignored_witness :
    handleRaw
      { token := "tok", debug := false, port := 18789, clients := [],
        conns := [(1, { deviceId := none, isOpen := true, remote := "9.9.9.9:1" })] }
      1 (ParseResult.ok { method := some "ping", id := some "r9" })
      "9.9.9.9:1" "ftok" 0 0 =
      ({ token := "tok", debug := false, port := 18789, clients := [],
         conns := [(1, { deviceId := none, isOpen := true, remote := "9.9.9.9:1" })] },
       []) := by
  exact unknown_method_silently_ignored
    { token := "tok", debug := false, port := 18789, clients := [],
      conns := [(1, { deviceId := none, isOpen := true, remote := "9.9.9.9:1" })] }
    1 { method := some "ping", id := some "r9" }
    "9.9.9.9:1" "ftok" 0 0 (by decide) (by decide) (by decide)

/-- Claim C4 counterexample: a connection paired under device id "d1" is
re-tagged by a second successful connect request carrying device id "d2" on
the same connection — the connection's assigned device id changes during its
lifetime. -/
theorem device_id_retagged_by_second_connect :
    let st0 : GWState :=
      { token := "tok", debug := false, port := 18789, clients := [],
        conns := [(1, { deviceId := none, isOpen := true, remote := "r" })] }
    let c1 : Msg :=
      { method := some "connect", id := some "a",
        params := some { authTokenNested := some "tok", deviceIdNested := some "d1" } }
    let c2 : Msg :=
      { method := some "connect", id := some "b",
        params := some { authTokenNested := some "tok", deviceIdNested := some "d2" } }
    let s1 := (handleRaw st0 1 (ParseResult.ok c1) "r" "f1" 0 0).1
    let s2 := (handleRaw s1 1 (ParseResult.ok c2) "r" "f2" 0 0).1
    connTag s1 1 = some "d1" ∧ connTag s2 1 = some "d2" := ⟨rfl, rfl⟩

/-- Claim C4 (amended): a connection's assigned device id changes only through
a further successful (token-matching) connect request on that connection: any
inbound frame that is not such a request — a parse failure, a wrong-token
connect, a chat.send, or any other method — leaves the connection's assigned
device id unchanged. -/
theorem device_id_stable_without_successful_connect
    (st : GWState) (cid : Nat) (pr : ParseResult) (remoteInfo freshTok : String)
    (ts1 ts2 : Int)
    (h : ∀ m, pr = ParseResult.ok m →
      ¬((m.method = some "connect" ∨ m.method = some "gateway.connect") ∧
        extractToken m = some st.token)) :
    connTag (handleRaw st cid pr remoteInfo freshTok ts1 ts2).1 cid = connTag st cid := by
  cases pr with
  | err e => rfl
  | ok m =>
      have hm := h m rfl
      by_cases hc : m.method = some "connect" ∨ m.method = some "gateway.connect"
      · have htok : extractToken m ≠ some st.token := fun ht => hm ⟨hc, ht⟩
        rcases hc with hcm | hcm <;> simp [handleRaw, handleMessage, hcm, htok]
      · have h1 : m.method ≠ some "connect" := fun hx => hc (Or.inl hx)
        have h2 : m.method ≠ some "gateway.connect" := fun hx => hc (Or.inr hx)
        by_cases h3 : m.method = some "chat.send"
        · cases hp : m.params with
          | none => simp [handleRaw, handleMessage, h1, h2, h3, hp]
          | some p => simp [handleRaw, handleMessage, h1, h2, h3, hp]
        · simp [handleRaw, handleMessage, h1, h2, h3]

/-- Witness for claim C4's amended theorem: a chat.send frame on a paired
connection leaves its assigned device id unchanged. -/
theorem device_id_stable_without_successful_connect_witness :
    let st : GWState :=
      { token := "tok", debug := false, port := 18789, clients := [("d1", 1)],
        conns := [(1, { deviceId := some "d1", isOpen := true, remote := "r" })] }
    let m : Msg :=
      { method := some "chat.send", id := some "x",
        params := some { message := some "hi" } }
    connTag (handleRaw st 1 (ParseResult.ok m) "r" "f" 0 0).1 1 = connTag st 1 := by
  exact device_id_stable_without_successful_connect
    { token := "tok", debug := false, port := 18789, clients := [("d1", 1)],
      conns := [(1, { deviceId := some "d1", isOpen := true, remote := "r" })] }
    1 (ParseResult.ok
      { method := some "chat.send", id := some "x",
        params := some { message := some "hi" } })
    "r" "f" 0 0 (by intro m hm; cases hm; decide)

/-- Claim C5 failing input, evaluated on the code: pair device "d1" on
connection 1, re-pair "d1" on connection 2 (the registry now maps "d1" to
connection 2, which stays open), then close connection 1. Connection 1 still
carries the stale "d1" tag, so the disconnect handler deletes the registry
entry for "d1" — the entry pointing at the still-open connection 2 — and a
subsequent sendText to "d1" fails. The registry no longer reflects the latest
successful pairing, contradicting the claimed invariant. -/
theorem stale_close_deletes_latest_pairing :
    let st0 : GWState := { token := "tok", debug := false, port := 18789,
                           clients := [], conns := [] }
    let connectD1 : Msg :=
      { method := some "connect", id := some "a",
        params := some { authTokenNested := some "tok", deviceIdNested := some "d1" } }
    let s := run st0
      [Cmd.accept 1 "remA" "n1" 0,
       Cmd.recv 1 (ParseResult.ok connectD1) "remA" "f1" 0 0,
       Cmd.accept 2 "remB" "n2" 0,
       Cmd.recv 2 (ParseResult.ok connectD1) "remB" "f2" 0 0,
       Cmd.close 1]
    mapGet s.1.clients "d1" = none ∧
    (mapGet s.1.conns 2).map ConnInfo.isOpen = some true ∧
    (sendText s.1 "d1" "hello" {} "fr" 0).1 = false :=
  ⟨rfl, rfl, rfl⟩

/-- Claim C6 counterexample: with debug disabled, start() still logs the
gateway token — the startup log contains a Gateway Token line whose rendered
text contains the token as a substring. -/
theorem token_logged_at_startup_without_debug :
    Eff.log (LogLine.gatewayToken "sek") ∈
      startEffs { token := "sek", debug := false, port := 18789,
                  clients := [], conns := [] } ∧
    containsStr (LogLine.render (LogLine.gatewayToken "sek")) "sek" := by
  constructor
  · simp [startEffs]
  · exact ⟨"[RabbitGateway] Gateway Token: ", "", rfl⟩

/-- With debug disabled, every effect `_sendJson` produces is a written frame
(membership form of `sendJson_nonsensitive`). -/
theorem sendJson_mem_nonsensitive (st : GWState) (cid : Nat) (j : Json)
    (h : st.debug = false) : ∀ e ∈ sendJson st cid j, e.sensitiveLog = false := by
  intro e he
  unfold sendJson at he
  cases hg : mapGet st.conns cid with
  | none => rw [hg] at he; cases he
  | some ci =>
      rw [hg] at he
      by_cases ho : ci.isOpen = true
      · simp [h, ho] at he
        subst he
        rfl
      · simp [ho] at he

/-- With debug disabled, `_handleMessage` emits no sensitive log line (no
Gateway Token line, no raw-frame debug echo). -/
theorem handleMessage_nonsensitive
    (st : GWState) (cid : Nat) (m : Msg) (remoteInfo freshTok : String)
    (ts1 ts2 : Int) (hdbg : st.debug = false) :
    ((handleMessage st cid m remoteInfo freshTok ts1 ts2).effs.all
      fun e => !e.sensitiveLog) = true := by
  by_cases hc : m.method = some "connect" ∨ m.method = some "gateway.connect"
  · by_cases htok : extractToken m = some st.token
    · rcases hc with hcm | hcm <;>
        (simp [handleMessage, hcm, htok, hdbg, List.all_append, Eff.sensitiveLog,
           LogLine.sensitive]
         refine ⟨fun x hx => ?_, fun x hx => ?_, fun x hx => ?_⟩ <;>
           exact sendJson_mem_nonsensitive _ _ _ rfl x hx)
    · rcases hc with hcm | hcm <;>
        (simp [handleMessage, hcm, htok, hdbg, List.all_append, Eff.sensitiveLog,
           LogLine.sensitive]
         intro x hx
         exact sendJson_mem_nonsensitive _ _ _ hdbg x hx)
  · have h1 : m.method ≠ some "connect" := fun hx => hc (Or.inl hx)
    have h2 : m.method ≠ some "gateway.connect" := fun hx => hc (Or.inr hx)
    by_cases h3 : m.method = some "chat.send"
    · cases hp : m.params with
      | none => simp [handleMessage, h1, h2, h3, hp, hdbg]
      | some p =>
          simp [handleMessage, h1, h2, h3, hp, hdbg, List.all_append,
            Eff.sensitiveLog]
          intro x hx
          exact sendJson_mem_nonsensitive _ _ _ hdbg x hx
    · simp [handleMessage, h1, h2, h3, hdbg]

/-- Claim C6 (amended): the gateway token reaches the log only through the
startup Gateway Token line, which start() prints regardless of the debug
setting (the counterexample); with debug disabled, every other code path —
message handling, sendText, transport close, and connection accept — emits no
log line that interpolates the token and no raw-frame debug echo. -/
theorem no_sensitive_log_outside_startup (st : GWState) (hdbg : st.debug = false) :
    (∀ (cid : Nat) (pr : ParseResult) (remoteInfo freshTok : String) (ts1 ts2 : Int),
      (((handleRaw st cid pr remoteInfo freshTok ts1 ts2).2).all
        fun e => !e.sensitiveLog) = true) ∧
    (∀ (deviceId text : String) (opts : SendOpts) (freshRun : String) (now : Int),
      (((sendText st deviceId text opts freshRun now).2).all
        fun e => !e.sensitiveLog) = true) ∧
    (∀ cid : Nat, (((handleClose st cid).2).all fun e => !e.sensitiveLog) = true) ∧
    (∀ (cid : Nat) (remote nonce : String) (ts : Int),
      (((handleConnection st cid remote nonce ts).2).all
        fun e => !e.sensitiveLog) = true) := by
  refine ⟨?_, ?_, ?_, ?_⟩
  · intro cid pr remoteInfo freshTok ts1 ts2
    cases pr with
    | err e => rfl
    | ok m =>
        have hmsg := handleMessage_nonsensitive st cid m remoteInfo freshTok ts1 ts2 hdbg
        unfold handleRaw
        cases hthrew : (handleMessage st cid m remoteInfo freshTok ts1 ts2).threw with
        | none => simpa [hthrew] using hmsg
        | some e =>
            simp [hthrew, List.all_append, Eff.sensitiveLog, LogLine.sensitive]
            intro x hx
            have hx' := List.all_eq_true.mp hmsg x hx
            exact (by simpa using hx' : x.sensitiveLog = false)
  · intro deviceId text opts freshRun now
    unfold sendText
    cases mapGet st.clients deviceId with
    | none => rfl
    | some cid => simpa using sendJson_nonsensitive st cid _ hdbg
  · intro cid
    unfold handleClose
    cases (mapGet st.conns cid).bind ConnInfo.deviceId with
    | none => rfl
    | some d =>
        by_cases hd : d = "" <;> simp [hd, Eff.sensitiveLog, LogLine.sensitive]
  · intro cid remote nonce ts
    unfold handleConnection
    simp [List.all_append, Eff.sensitiveLog, LogLine.sensitive]
    intro x hx
    exact sendJson_mem_nonsensitive
      { st with conns := mapSet st.conns cid ⟨none, true, remote⟩ }
      cid (challengeJson nonce ts) hdbg x hx

/-- Witness for claim C6's amended theorem at a concrete state with debug
disabled. -/
theorem no_sensitive_log_outside_startup_witness :
    let st : GWState :=
      { token := "sek", debug := false, port := 18789, clients := [("d1", 1)],
        conns := [(1, { deviceId := some "d1", isOpen := true, remote := "r" })] }
    (∀ (cid : Nat) (pr : ParseResult) (remoteInfo freshTok : String) (ts1 ts2 : Int),
      (((handleRaw st cid pr remoteInfo freshTok ts1 ts2).2).all
        fun e => !e.sensitiveLog) = true) ∧
    (∀ (deviceId text : String) (opts : SendOpts) (freshRun : String) (now : Int),
      (((sendText st deviceId text opts freshRun now).2).all
        fun e => !e.sensitiveLog) = true) ∧
    (∀ cid : Nat, (((handleClose st cid).2).all fun e => !e.sensitiveLog) = true) ∧
    (∀ (cid : Nat) (remote nonce : String) (ts : Int),
      (((handleConnection st cid remote nonce ts).2).all
        fun e => !e.sensitiveLog) = true) := by
  exact no_sensitive_log_outside_startup
    { token := "sek", debug := false, port := 18789, clients := [("d1", 1)],
      conns := [(1, { deviceId := some "d1", isOpen := true, remote := "r" })] }
    rfl

/-- Claim C7: for every sendText call whose device id is absent from the
registry, the call returns false and its only effect is a log line — no frame
is written on any connection, no notification is raised, and (by the shape of
sendText, which takes no state to a new state) no gateway state changes. -/
theorem sendText_unknown_device_fails
    (st : GWState) (deviceId text : String) (opts : SendOpts)
    (freshRun : String) (now : Int)
    (h : mapGet st.clients deviceId = none) :
    sendText st deviceId text opts freshRun now =
      (false, [Eff.log (LogLine.cannotSend deviceId)]) := by
  simp [sendText, h]

/-- Witness for claim C7's theorem at a registry without the device id. -/
theorem sendText_unknown_device_fails_witness :
    sendText
      { token := "tok", debug := false, port := 18789, clients := [("d2", 2)],
        conns := [(2, { deviceId := some "d2", isOpen := true, remote := "r" })] }
      "d1" "hello" {} "fr" 0 =
      (false, [Eff.log (LogLine.cannotSend "d1")]) := by
  exact sendText_unknown_device_fails
    { token := "tok", debug := false, port := 18789, clients := [("d2", 2)],
      conns := [(2, { deviceId := some "d2", isOpen := true, remote := "r" })] }
    "d1" "hello" {} "fr" 0 rfl

/-- Claim C8: for every sendText call with the device id registered to an open
connection, (a) with no options supplied, the written frame is an Event chat
whose payload has seq 1, state "final", sessionKey "main", the freshly
generated runId, and message with role assistant, a single text content item,
stopReason "stop" and all usage counters zero; (b) caller-supplied (truthy)
sessionKey and runId are used instead of the defaults. -/
theorem sendText_registered_chat_event
    (st : GWState) (deviceId text freshRun rid sk : String) (now : Int)
    (cid : Nat) (ci : ConnInfo)
    (hreg : mapGet st.clients deviceId = some cid)
    (hconn : mapGet st.conns cid = some ci) (hopen : ci.isOpen = true)
    (hrid : rid ≠ "") (hsk : sk ≠ "") :
    obsOf (sendText st deviceId text {} freshRun now).2 =
      [Eff.frame cid (Json.obj [("type", Json.str "event"), ("event", Json.str "chat"),
        ("payload", Json.obj
          [("runId", Json.str freshRun), ("sessionKey", Json.str "main"),
           ("seq", Json.num 1), ("state", Json.str "final"),
           ("message", Json.obj
             [("role", Json.str "assistant"),
              ("content", Json.arr [Json.obj [("type", Json.str "text"),
                ("text", Json.str text)]]),
              ("timestamp", Json.num now), ("stopReason", Json.str "stop"),
              ("usage", Json.obj [("input", Json.num 0), ("output", Json.num 0),
                ("totalTokens", Json.num 0)])])])])] ∧
    obsOf (sendText st deviceId text { sessionKey := some sk, runId := some rid }
        freshRun now).2 =
      [Eff.frame cid (Json.obj [("type", Json.str "event"), ("event", Json.str "chat"),
        ("payload", Json.obj
          [("runId", Json.str rid), ("sessionKey", Json.str sk),
           ("seq", Json.num 1), ("state", Json.str "final"),
           ("message", Json.obj
             [("role", Json.str "assistant"),
              ("content", Json.arr [Json.obj [("type", Json.str "text"),
                ("text", Json.str text)]]),
              ("timestamp", Json.num now), ("stopReason", Json.str "stop"),
              ("usage", Json.obj [("input", Json.num 0), ("output", Json.num 0),
                ("totalTokens", Json.num 0)])])])])] := by
  constructor <;>
    cases hdbg : st.debug <;>
      simp [sendText, hreg, sendJson, hconn, hopen, hdbg, obsOf, List.filter_append,
        Eff.isLog, chatEventJson, jsOrDefault, hrid, hsk]

/-- Witness for claim C8's theorem at a concrete registered device. -/
theorem sendText_registered_chat_event_witness :
    let st : GWState :=
      { token := "tok", debug := false, port := 18789, clients := [("d1", 1)],
        conns := [(1, { deviceId := some "d1", isOpen := true, remote := "r" })] }
    obsOf (sendText st "d1" "hello" {} "run9" 7).2 =
      [Eff.frame 1 (Json.obj [("type", Json.str "event"), ("event", Json.str "chat"),
        ("payload", Json.obj
          [("runId", Json.str "run9"), ("sessionKey", Json.str "main"),
           ("seq", Json.num 1), ("state", Json.str "final"),
           ("message", Json.obj
             [("role", Json.str "assistant"),
              ("content", Json.arr [Json.obj [("type", Json.str "text"),
                ("text", Json.str "hello")]]),
              ("timestamp", Json.num 7), ("stopReason", Json.str "stop"),
              ("usage", Json.obj [("input", Json.num 0), ("output", Json.num 0),
                ("totalTokens", Json.num 0)])])])])] ∧
    obsOf (sendText st "d1" "hello" { sessionKey := some "s2", runId := some "r2" }
        "run9" 7).2 =
      [Eff.frame 1 (Json.obj [("type", Json.str "event"), ("event", Json.str "chat"),
        ("payload", Json.obj
          [("runId", Json.str "r2"), ("sessionKey", Json.str "s2"),
           ("seq", Json.num 1), ("state", Json.str "final"),
           ("message", Json.obj
             [("role", Json.str "assistant"),
              ("content", Json.arr [Json.obj [("type", Json.str "text"),
                ("text", Json.str "hello")]]),
              ("timestamp", Json.num 7), ("stopReason", Json.str "stop"),
              ("usage", Json.obj [("input", Json.num 0), ("output", Json.num 0),
                ("totalTokens", Json.num 0)])])])])] := by
  exact sendText_registered_chat_event
    { token := "tok", debug := false, port := 18789, clients := [("d1", 1)],
      conns := [(1, { deviceId := some "d1", isOpen := true, remote := "r" })] }
    "d1" "hello" "run9" "r2" "s2" 7 1
    { deviceId := some "d1", isOpen := true, remote := "r" }
    rfl rfl rfl (by decide) (by decide)

/-- Claim C9: for every inbound raw frame that does not parse as JSON, the
failure is soft — the handler's only effect is a per-connection log line
carrying the parse error; the state (registry and connections) is unchanged,
so the connection stays open and no notification is raised. -/
theorem malformed_frame_soft_failure
    (st : GWState) (cid : Nat) (remoteInfo errMsg freshTok : String)
    (ts1 ts2 : Int) :
    handleRaw st cid (ParseResult.err errMsg) remoteInfo freshTok ts1 ts2 =
      (st, [Eff.log (LogLine.parseError remoteInfo errMsg)]) := rfl

/-- Claim C10: for every sendText call whose device id is registered but whose
mapped connection's transport is no longer open, the call still returns true
while writing nothing at all — a true return does not imply the frame was
written. -/
theorem sendText_closed_conn_returns_true
    (st : GWState) (deviceId text : String) (opts : SendOpts)
    (freshRun : String) (now : Int) (cid : Nat) (ci : ConnInfo)
    (hreg : mapGet st.clients deviceId = some cid)
    (hconn : mapGet st.conns cid = some ci) (hclosed : ci.isOpen = false) :
    sendText st deviceId text opts freshRun now = (true, []) := by
  simp [sendText, hreg, sendJson, hconn, hclosed]

/-- Witness for claim C10's theorem at a registered device whose connection
is closed. -/
theorem sendText_closed_conn_returns_true_witness :
    sendText
      { token := "tok", debug := false, port := 18789, clients := [("d1", 1)],
        conns := [(1, { deviceId := some "d1", isOpen := false, remote := "r" })] }
      "d1" "hello" {} "fr" 0 = (true, []) := by
  exact sendText_closed_conn_returns_true
    { token := "tok", debug := false, port := 18789, clients := [("d1", 1)],
      conns := [(1, { deviceId := some "d1", isOpen := false, remote := "r" })] }
    "d1" "hello" {} "fr" 0 1
    { deviceId := some "d1", isOpen := false, remote := "r" }
    rfl rfl rfl

end RabbitGateway
